import Mathlib

/-!
Verification development for the aurora-snapshot-tool reconciliation engines.

Two engines are embedded, following the two lambda handlers:

- the Copier (src/lambda/copy_snapshots_dest_aurora/lambda_function.py):
  iterates over the shared-snapshots mapping and, per identifier, either
  copies the snapshot locally, copies it to the destination region, deletes
  the redundant local copy, or does nothing, accumulating a pending counter;
- the Sharer (src/lambda/share_snapshots_aurora/lambda_function.py):
  iterates over the own tagged snapshots and shares the available ones with
  the destination account, accumulating a pending counter.

External collaborators (the classified listings, the tag lookup, and the
outcome of each mutating API call) are parameters of the embedded functions:
the listings are inputs, and each mutating call is modelled by a boolean
oracle telling whether that call raises an exception for a given identifier.
Wall-clock time is an integer parameter measured in seconds; the source
comparison days_difference < RETENTION_DAYS (with days_difference the real
quotient seconds / 86400) is embedded as the equivalent integer comparison
seconds < RETENTION_DAYS * 86400.

Note on line 109 of the Copier source: the statement
  copy_client = dest_client if REGION != DESTINATION_REGION else client
names dest_client, which is bound nowhere (the module defines client_dest);
when the regions differ, evaluating it raises a NameError inside the try
block, which the except clause at line 112 catches, so on that path the
pending counter is incremented and copy_local is never invoked. The
embedding reproduces this behaviour of the source.
-/

/-- A snapshot record as listed by the describe call: status string, ARN,
and the creation timestamp in seconds. The timestamp is optional; a missing
timestamp is the "no valid timestamp" case of get_timestamp. The timestamp
lookup itself is modelled from the spec: get_timestamp lives in
snapshots_tool_utils, outside src/, and per the spec it returns the
creation timestamp of the record or signals that none is valid. -/
structure SnapshotRecord where
  status : String
  arn : String
  creationDate : Option Int
deriving DecidableEq

/-- One invoked external mutation call, recorded with its target identifier.
An action is recorded whenever the corresponding API call is issued, whether
or not the call then raises. -/
inductive ApiAction where
  | copyLocal (id : String)
  | copyRemote (id : String)
  | deleteLocal (id : String)
  | share (id : String) (account : String)
deriving DecidableEq

/-- The identifier an action targets. -/
def ApiAction.target : ApiAction → String
  | .copyLocal id => id
  | .copyRemote id => id
  | .deleteLocal id => id
  | .share id _ => id

/-- Running state of one invocation: the pending counter and the trace of
invoked mutation calls. -/
structure RunState where
  pending : Nat
  actions : List ApiAction
deriving DecidableEq

deriving instance DecidableEq for Except

/-- Configuration and clock of the Copier: REGION, DESTINATION_REGION,
RETENTION_DAYS, and the current time datetime.now() in seconds. -/
structure CopierEnv where
  region : String
  destRegion : String
  retentionDays : Int
  now : Int
deriving DecidableEq

/-- Outcomes of the external mutation calls of the Copier, per identifier:
whether copy_local, copy_remote, or delete_db_cluster_snapshot raises an
exception when invoked on that identifier. -/
structure CopierWorld where
  copyLocalThrows : String → Bool
  copyRemoteThrows : String → Bool
  deleteThrows : String → Bool

/-- Guard of the first branch (source line 97): the identifier is in neither
the own-source mapping nor the own-destination mapping. -/
def copierGuardLocal (own ownDest : String → Option SnapshotRecord) (id : String) : Bool :=
  (own id).isNone && (ownDest id).isNone

/-- Guard of the second branch (source line 133): not in the own-destination
mapping, in the own-source mapping, and the regions differ. -/
def copierGuardRemote (env : CopierEnv) (own ownDest : String → Option SnapshotRecord)
    (id : String) : Bool :=
  (ownDest id).isNone && (own id).isSome && (env.region != env.destRegion)

/-- Status of the own-destination record, "available" test (source line 150). -/
def ownDestStatusAvailable (ownDest : String → Option SnapshotRecord) (id : String) : Bool :=
  match ownDest id with
  | some r => r.status == "available"
  | none => false

/-- Guard of the third branch (source line 150): in both own mappings, the
destination copy is available, and the regions differ. -/
def copierGuardDelete (env : CopierEnv) (own ownDest : String → Option SnapshotRecord)
    (id : String) : Bool :=
  (ownDest id).isSome && (own id).isSome && ownDestStatusAvailable ownDest id
    && (env.region != env.destRegion)

/-- One iteration of the Copier loop body (source lines 95-156) on one entry
of the shared-snapshots mapping. An error result models an exception
escaping the loop body uncaught (only possible in the delete branch, whose
call is not wrapped in try), carrying the state at the moment of the raise. -/
def copierStep (env : CopierEnv) (own ownDest : String → Option SnapshotRecord)
    (w : CopierWorld) (st : RunState) (entry : String × SnapshotRecord) :
    Except RunState RunState :=
  let id := entry.1
  if copierGuardLocal own ownDest id then
    -- lines 98-130: check the timestamp and the retention window
    match entry.2.creationDate with
    | some ts =>
      if env.now - ts < env.retentionDays * 86400 then
        -- lines 108-122
        if env.region != env.destRegion then
          -- line 109 evaluates the unbound name dest_client: NameError,
          -- caught at line 112; copy_local is never invoked on this path
          .ok ⟨st.pending + 1, st.actions⟩
        else if w.copyLocalThrows id then
          .ok ⟨st.pending + 1, st.actions ++ [ApiAction.copyLocal id]⟩
        else if env.region != env.destRegion then
          -- line 119, dead on this path since the regions are equal here
          .ok ⟨st.pending + 1, st.actions ++ [ApiAction.copyLocal id]⟩
        else
          .ok ⟨st.pending, st.actions ++ [ApiAction.copyLocal id]⟩
      else
        -- line 124: older than RETENTION_DAYS, log only
        .ok st
    | none =>
      -- line 128: no valid timestamp, log only
      .ok st
  else if copierGuardRemote env own ownDest id then
    match own id with
    | some rec =>
      if rec.status == "available" then
        if w.copyRemoteThrows id then
          .ok ⟨st.pending + 1, st.actions ++ [ApiAction.copyRemote id]⟩
        else
          .ok ⟨st.pending, st.actions ++ [ApiAction.copyRemote id]⟩
      else
        -- lines 144-147: not yet available, counted pending, no call
        .ok ⟨st.pending + 1, st.actions⟩
    | none =>
      -- unreachable: the guard requires the own-source record to exist
      .ok st
  else if copierGuardDelete env own ownDest id then
    -- lines 150-156: the delete call is not wrapped in try/except
    if w.deleteThrows id then
      .error ⟨st.pending, st.actions ++ [ApiAction.deleteLocal id]⟩
    else
      .ok ⟨st.pending, st.actions ++ [ApiAction.deleteLocal id]⟩
  else
    .ok st

/-- The Copier loop over the shared-snapshots mapping, in listing order. -/
def copierLoop (env : CopierEnv) (own ownDest : String → Option SnapshotRecord)
    (w : CopierWorld) :
    List (String × SnapshotRecord) → RunState → Except RunState RunState
  | [], st => .ok st
  | e :: rest, st =>
    match copierStep env own ownDest w st e with
    | .error s => .error s
    | .ok s => copierLoop env own ownDest w rest s

/-- Result of one Copier invocation: normal return, the raised
SnapshotToolException carrying the pending count (source lines 158-161), or
an exception propagating uncaught out of the loop. -/
inductive CopierOutcome where
  | ok
  | snapshotToolException (pending : Nat)
  | uncaught
deriving DecidableEq

namespace CopySnapshotsDestAurora

/-- The Copier entry point (source lines 44-161) over the classified
listings, with the pending check of lines 158-161. -/
def lambda_handler (env : CopierEnv) (own ownDest : String → Option SnapshotRecord)
    (w : CopierWorld) (shared : List (String × SnapshotRecord)) : CopierOutcome :=
  match copierLoop env own ownDest w shared ⟨0, []⟩ with
  | .error _ => .uncaught
  | .ok s => if s.pending > 0 then .snapshotToolException s.pending else .ok

end CopySnapshotsDestAurora

/-- Lowercase of a string, embedding the Python str.lower call applied to
status strings (all ASCII in this domain). -/
def lowerString (s : String) : String := ⟨s.data.map Char.toLower⟩

/-- One iteration of the Sharer loop body (source lines 46-68) on one entry
of the own tagged-snapshots mapping. hasShareMarker models
search_tag_share applied to the tags listed for the ARN of the record;
modifyThrows models the outcome of modify_db_cluster_snapshot_attribute. -/
def shareStep (destAccountId : String) (hasShareMarker : String → Bool)
    (modifyThrows : String → Bool) (st : RunState)
    (entry : String × SnapshotRecord) : RunState :=
  let id := entry.1
  if hasShareMarker entry.2.arn then
    if lowerString entry.2.status == "available" then
      -- lines 53-64: the share call is invoked; a raise is caught
      if modifyThrows id then
        ⟨st.pending + 1, st.actions ++ [ApiAction.share id destAccountId]⟩
      else
        ⟨st.pending, st.actions ++ [ApiAction.share id destAccountId]⟩
    else if lowerString entry.2.status == "copying" then
      -- lines 66-68: counted pending, no call
      ⟨st.pending + 1, st.actions⟩
    else
      st
  else
    st

/-- The Sharer loop over the filtered own-snapshots mapping. -/
def shareLoop (destAccountId : String) (hasShareMarker modifyThrows : String → Bool) :
    List (String × SnapshotRecord) → RunState → RunState
  | [], st => st
  | e :: rest, st =>
    shareLoop destAccountId hasShareMarker modifyThrows rest
      (shareStep destAccountId hasShareMarker modifyThrows st e)

/-- Result of one Sharer invocation: normal return or the raised
SnapshotToolException carrying the pending count (source lines 70-73). -/
inductive SharerOutcome where
  | ok
  | snapshotToolException (pending : Nat)
deriving DecidableEq

namespace ShareSnapshotsAurora

/-- The Sharer entry point (source lines 39-73). -/
def lambda_handler (destAccountId : String) (hasShareMarker modifyThrows : String → Bool)
    (filtered : List (String × SnapshotRecord)) : SharerOutcome :=
  let s := shareLoop destAccountId hasShareMarker modifyThrows filtered ⟨0, []⟩
  if s.pending > 0 then .snapshotToolException s.pending else .ok

end ShareSnapshotsAurora

/-- The underlying state of a loop result, whether the loop returned or was
aborted by an uncaught exception. -/
def exceptState : Except RunState RunState → RunState
  | .ok s => s
  | .error s => s

/-- Whether the shared record is within the retention window: the timestamp
exists and the age in seconds is below RETENTION_DAYS * 86400 (source
lines 99-105). -/
def copierFresh (env : CopierEnv) (rec : SnapshotRecord) : Bool :=
  match rec.creationDate with
  | some ts => decide (env.now - ts < env.retentionDays * 86400)
  | none => false

/-- Status of the own-source record, "available" test (source line 134). -/
def ownStatusAvailable (own : String → Option SnapshotRecord) (id : String) : Bool :=
  match own id with
  | some r => r.status == "available"
  | none => false

/-- Entries of the shared mapping whose transition attempt raises an
exception that the Copier catches: the local-copy branch when the regions
differ (the NameError of line 109) or when copy_local raises (line 112), and
the remote-copy branch when copy_remote raises (line 139). -/
def copierCaughtFailure (env : CopierEnv) (own ownDest : String → Option SnapshotRecord)
    (w : CopierWorld) (e : String × SnapshotRecord) : Bool :=
  (copierGuardLocal own ownDest e.1 && copierFresh env e.2 &&
    ((env.region != env.destRegion) || w.copyLocalThrows e.1)) ||
  (copierGuardRemote env own ownDest e.1 && ownStatusAvailable own e.1 &&
    w.copyRemoteThrows e.1)

/-- Entries of the shared mapping in the remote-copy branch whose own-source
status is not "available" (source lines 144-147). -/
def copierNotAvailableRemote (env : CopierEnv) (own ownDest : String → Option SnapshotRecord)
    (e : String × SnapshotRecord) : Bool :=
  copierGuardRemote env own ownDest e.1 && !(ownStatusAvailable own e.1)

/-- Entries of the Sharer mapping that carry the share marker, are available,
and whose share call raises (source lines 62-64). -/
def sharerShareFailure (hasShareMarker modifyThrows : String → Bool)
    (e : String × SnapshotRecord) : Bool :=
  hasShareMarker e.2.arn && (lowerString e.2.status == "available") && modifyThrows e.1

/-- Entries of the Sharer mapping that carry the share marker and are in
"copying" status (source lines 66-68). -/
def sharerCopying (hasShareMarker : String → Bool) (e : String × SnapshotRecord) : Bool :=
  hasShareMarker e.2.arn && (lowerString e.2.status == "copying")

lemma copierStep_ok_pending (env : CopierEnv) (own ownDest : String → Option SnapshotRecord)
    (w : CopierWorld) (st s : RunState) (id : String) (rec : SnapshotRecord)
    (h : copierStep env own ownDest w st (id, rec) = .ok s) :
    s.pending = st.pending + (if copierCaughtFailure env own ownDest w (id, rec) then 1 else 0)
      + (if copierNotAvailableRemote env own ownDest (id, rec) then 1 else 0) := by
  unfold copierStep at h
  unfold copierCaughtFailure copierNotAvailableRemote copierFresh ownStatusAvailable
    copierGuardLocal copierGuardRemote copierGuardDelete ownDestStatusAvailable at *
  cases hOwn : own id <;> cases hDest : ownDest id <;>
    simp only [hOwn, hDest, Option.isNone_none, Option.isNone_some, Option.isSome_none,
      Option.isSome_some, Bool.true_and, Bool.false_and, Bool.and_true, Bool.and_false,
      Bool.true_or, Bool.false_or, Bool.or_true, Bool.or_false, if_true, if_false,
      Bool.not_true, Bool.not_false] at h ⊢ <;>
    repeat' split at h
  all_goals repeat' split
  all_goals (try simp_all)
  all_goals (try subst h)
  all_goals (first | rfl | omega)

lemma copierStep_actions_mem (env : CopierEnv) (own ownDest : String → Option SnapshotRecord)
    (w : CopierWorld) (st s : RunState) (id : String) (rec : SnapshotRecord)
    (h : copierStep env own ownDest w st (id, rec) = .ok s ∨
         copierStep env own ownDest w st (id, rec) = .error s) :
    ∀ a ∈ s.actions, a ∈ st.actions ∨ ApiAction.target a = id := by
  obtain h | h := h
  all_goals (
    unfold copierStep at h
    unfold copierGuardLocal copierGuardRemote copierGuardDelete ownDestStatusAvailable at h
    cases hOwn : own id <;> cases hDest : ownDest id <;>
      simp only [hOwn, hDest, Option.isNone_none, Option.isNone_some, Option.isSome_none,
        Option.isSome_some, Bool.true_and, Bool.false_and, Bool.and_true, Bool.and_false,
        if_true, if_false, Bool.not_true, Bool.not_false] at h <;>
      repeat' split at h
    all_goals simp_all
    all_goals (try subst h)
    all_goals intro a ha
    all_goals simp_all [ApiAction.target]
    all_goals (rcases ha with ha | ha <;> simp_all))

lemma copierStep_actions_count (id0 : String) (env : CopierEnv)
    (own ownDest : String → Option SnapshotRecord)
    (w : CopierWorld) (st s : RunState) (id : String) (rec : SnapshotRecord)
    (h : copierStep env own ownDest w st (id, rec) = .ok s ∨
         copierStep env own ownDest w st (id, rec) = .error s) :
    s.actions.countP (fun a => ApiAction.target a == id0)
      ≤ st.actions.countP (fun a => ApiAction.target a == id0)
        + (if id = id0 then 1 else 0) := by
  obtain h | h := h
  all_goals (
    unfold copierStep at h
    unfold copierGuardLocal copierGuardRemote copierGuardDelete ownDestStatusAvailable at h
    cases hOwn : own id <;> cases hDest : ownDest id <;>
      simp only [hOwn, hDest, Option.isNone_none, Option.isNone_some, Option.isSome_none,
        Option.isSome_some, Bool.true_and, Bool.false_and, Bool.and_true, Bool.and_false,
        if_true, if_false, Bool.not_true, Bool.not_false] at h <;>
      repeat' split at h
    all_goals simp_all
    all_goals (try subst h)
    all_goals simp [List.countP_append, List.countP_cons, ApiAction.target])

lemma copierStep_error_pending (env : CopierEnv) (own ownDest : String → Option SnapshotRecord)
    (w : CopierWorld) (st s : RunState) (id : String) (rec : SnapshotRecord)
    (h : copierStep env own ownDest w st (id, rec) = .error s) :
    s.pending = st.pending := by
  unfold copierStep at h
  unfold copierGuardLocal copierGuardRemote copierGuardDelete ownDestStatusAvailable at h
  cases hOwn : own id <;> cases hDest : ownDest id <;>
    simp only [hOwn, hDest, Option.isNone_none, Option.isNone_some, Option.isSome_none,
      Option.isSome_some, Bool.true_and, Bool.false_and, Bool.and_true, Bool.and_false,
      if_true, if_false, Bool.not_true, Bool.not_false] at h <;>
    repeat' split at h
  all_goals simp_all
  all_goals (try subst h)
  all_goals rfl

lemma copierStep_congr (env : CopierEnv) (own1 ownDest1 own2 ownDest2 : String → Option SnapshotRecord)
    (w : CopierWorld) (st : RunState) (id : String) (rec : SnapshotRecord)
    (h1 : own1 id = own2 id) (h2 : ownDest1 id = ownDest2 id) :
    copierStep env own1 ownDest1 w st (id, rec) = copierStep env own2 ownDest2 w st (id, rec) := by
  simp only [copierStep, copierGuardLocal, copierGuardRemote, copierGuardDelete,
    ownDestStatusAvailable, h1, h2]

lemma copierLoop_ok_pending (env : CopierEnv) (own ownDest : String → Option SnapshotRecord)
    (w : CopierWorld) (l : List (String × SnapshotRecord)) (st s : RunState)
    (h : copierLoop env own ownDest w l st = .ok s) :
    s.pending = st.pending + l.countP (copierCaughtFailure env own ownDest w)
      + l.countP (copierNotAvailableRemote env own ownDest) := by
  induction l generalizing st with
  | nil =>
    simp [copierLoop] at h
    simp [h, List.countP_nil]
  | cons e rest ih =>
    obtain ⟨id, rec⟩ := e
    rw [copierLoop] at h
    rcases hstep : copierStep env own ownDest w st (id, rec) with s1 | s1 <;> rw [hstep] at h
    · exact absurd h (by simp)
    · have hp := copierStep_ok_pending env own ownDest w st s1 id rec hstep
      have := ih s1 h
      rw [List.countP_cons, List.countP_cons]
      omega

lemma copierLoop_congr (env : CopierEnv) (own1 ownDest1 own2 ownDest2 : String → Option SnapshotRecord)
    (w : CopierWorld) (l : List (String × SnapshotRecord)) (st : RunState)
    (h1 : ∀ e ∈ l, own1 e.1 = own2 e.1) (h2 : ∀ e ∈ l, ownDest1 e.1 = ownDest2 e.1) :
    copierLoop env own1 ownDest1 w l st = copierLoop env own2 ownDest2 w l st := by
  induction l generalizing st with
  | nil => rfl
  | cons e rest ih =>
    obtain ⟨id, rec⟩ := e
    rw [copierLoop, copierLoop,
      copierStep_congr env own1 ownDest1 own2 ownDest2 w st id rec
        (h1 (id, rec) (by simp)) (h2 (id, rec) (by simp))]
    rcases copierStep env own2 ownDest2 w st (id, rec) with s1 | s1
    · rfl
    · exact ih s1 (fun e he => h1 e (List.mem_cons_of_mem _ he))
        (fun e he => h2 e (List.mem_cons_of_mem _ he))

lemma copierLoop_actions_mem (env : CopierEnv) (own ownDest : String → Option SnapshotRecord)
    (w : CopierWorld) (l : List (String × SnapshotRecord)) (st : RunState) :
    ∀ a ∈ (exceptState (copierLoop env own ownDest w l st)).actions,
      a ∈ st.actions ∨ ApiAction.target a ∈ l.map Prod.fst := by
  induction l generalizing st with
  | nil => simp [copierLoop, exceptState]
  | cons e rest ih =>
    obtain ⟨id, rec⟩ := e
    intro a ha
    rw [copierLoop] at ha
    rcases hstep : copierStep env own ownDest w st (id, rec) with s1 | s1 <;> rw [hstep] at ha
    · have := copierStep_actions_mem env own ownDest w st s1 id rec (Or.inr hstep) a
        (by simpa [exceptState] using ha)
      rcases this with h | h
      · exact Or.inl h
      · exact Or.inr (by simp [h])
    · rcases ih s1 a ha with h | h
      · rcases copierStep_actions_mem env own ownDest w st s1 id rec (Or.inl hstep) a h with h2 | h2
        · exact Or.inl h2
        · exact Or.inr (by simp [h2])
      · exact Or.inr (by simp [h])

lemma copierLoop_actions_count (id0 : String) (env : CopierEnv)
    (own ownDest : String → Option SnapshotRecord)
    (w : CopierWorld) (l : List (String × SnapshotRecord)) (st : RunState) :
    (exceptState (copierLoop env own ownDest w l st)).actions.countP
        (fun a => ApiAction.target a == id0)
      ≤ st.actions.countP (fun a => ApiAction.target a == id0)
        + l.countP (fun e => e.1 == id0) := by
  induction l generalizing st with
  | nil => simp [copierLoop, exceptState]
  | cons e rest ih =>
    obtain ⟨id, rec⟩ := e
    rw [copierLoop]
    rcases hstep : copierStep env own ownDest w st (id, rec) with s1 | s1 <;>
      simp only [hstep]
    · have := copierStep_actions_count id0 env own ownDest w st s1 id rec (Or.inr hstep)
      rw [List.countP_cons]
      simp only [exceptState]
      split <;> simp_all <;> omega
    · have h1 := copierStep_actions_count id0 env own ownDest w st s1 id rec (Or.inl hstep)
      have h2 := ih s1
      rw [List.countP_cons]
      by_cases hid : id = id0
      · rw [if_pos hid] at h1
        have hb : ((id, rec).1 == id0) = true := by simp [hid]
        rw [hb]
        simp
        omega
      · rw [if_neg hid] at h1
        have hb : ((id, rec).1 == id0) = false := by simp [hid]
        rw [hb]
        simp
        omega

lemma shareStep_pending (acct : String) (marker throws : String → Bool)
    (st : RunState) (e : String × SnapshotRecord) :
    (shareStep acct marker throws st e).pending
      = st.pending + (if sharerShareFailure marker throws e then 1 else 0)
        + (if sharerCopying marker e then 1 else 0) := by
  unfold shareStep sharerShareFailure sharerCopying
  repeat' split
  all_goals simp_all

lemma shareLoop_pending (acct : String) (marker throws : String → Bool)
    (l : List (String × SnapshotRecord)) (st : RunState) :
    (shareLoop acct marker throws l st).pending
      = st.pending + l.countP (sharerShareFailure marker throws)
        + l.countP (sharerCopying marker) := by
  induction l generalizing st with
  | nil => simp [shareLoop]
  | cons e rest ih =>
    rw [shareLoop, ih, List.countP_cons, List.countP_cons, shareStep_pending]
    omega

/-- C2: a snapshot present only in the shared set whose age is at least the
retention window, or whose timestamp is unknown, is a no-op for the Copier:
the step neither invokes any call nor changes the pending counter. -/
theorem C2_stale_or_untimestamped_shared_is_noop
    (env : CopierEnv) (own ownDest : String → Option SnapshotRecord) (w : CopierWorld)
    (st : RunState) (id : String) (rec : SnapshotRecord)
    (hOwn : own id = none) (hDest : ownDest id = none)
    (hAge : rec.creationDate = none ∨
      ∃ ts, rec.creationDate = some ts ∧ env.retentionDays * 86400 ≤ env.now - ts) :
    copierStep env own ownDest w st (id, rec) = .ok st := by
  unfold copierStep copierGuardLocal
  simp only [hOwn, hDest, Option.isNone_none, Bool.and_self, if_true]
  rcases hAge with h | ⟨ts, h, hle⟩
  · simp [h]
  · simp only [h]
    rw [if_neg (not_lt.mpr hle)]

/-- C3: a snapshot in the own-source set and not in the own-destination set,
with the regions distinct, is copied to the destination region when its
own-source status is available, and otherwise is a no-op counted as one
pending transition. -/
theorem C3_remote_copy_decision
    (env : CopierEnv) (own ownDest : String → Option SnapshotRecord) (w : CopierWorld)
    (st : RunState) (id : String) (shrec orec : SnapshotRecord)
    (hOwn : own id = some orec) (hDest : ownDest id = none)
    (hRegion : env.region ≠ env.destRegion) :
    (orec.status = "available" →
      copierStep env own ownDest w st (id, shrec)
        = .ok ⟨st.pending + (if w.copyRemoteThrows id then 1 else 0),
               st.actions ++ [ApiAction.copyRemote id]⟩) ∧
    (orec.status ≠ "available" →
      copierStep env own ownDest w st (id, shrec) = .ok ⟨st.pending + 1, st.actions⟩) := by
  unfold copierStep copierGuardLocal copierGuardRemote
  simp only [hOwn, hDest, Option.isNone_none, Option.isNone_some, Option.isSome_some,
    Bool.false_and, Bool.true_and, Bool.and_true, if_false, bne_iff_ne, ne_eq, hRegion,
    not_false_iff, if_true]
  constructor
  · intro hs
    by_cases ht : w.copyRemoteThrows id <;> simp [hs, ht]
  · intro hs
    simp [hs]

/-- C4: a snapshot in both own sets whose destination copy is available, with
the regions distinct, triggers the delete call on the source-region copy;
the call is not guarded by try, so a raise escapes as an error. -/
theorem C4_delete_local_decision
    (env : CopierEnv) (own ownDest : String → Option SnapshotRecord) (w : CopierWorld)
    (st : RunState) (id : String) (shrec orec drec : SnapshotRecord)
    (hOwn : own id = some orec) (hDest : ownDest id = some drec)
    (hAvail : drec.status = "available") (hRegion : env.region ≠ env.destRegion) :
    copierStep env own ownDest w st (id, shrec)
      = (if w.deleteThrows id then Except.error else Except.ok)
          ⟨st.pending, st.actions ++ [ApiAction.deleteLocal id]⟩ := by
  unfold copierStep copierGuardLocal copierGuardRemote copierGuardDelete ownDestStatusAvailable
  simp only [hOwn, hDest, Option.isNone_some, Option.isSome_some, Bool.false_and,
    Bool.and_false, Bool.true_and, Bool.and_true, if_false, hAvail, bne_iff_ne, ne_eq,
    hRegion, not_false_iff, if_true]
  by_cases ht : w.deleteThrows id <;> simp [ht, hRegion]

/-- C9: in the Sharer, a snapshot carrying the share marker is shared with
the destination account when its case-normalized status is available; in
status copying it is a no-op counted pending; in any other status it is a
no-op that leaves the state unchanged. -/
theorem C9_sharer_decision (acct : String) (marker throws : String → Bool)
    (st : RunState) (id : String) (rec : SnapshotRecord)
    (hm : marker rec.arn = true) :
    (lowerString rec.status = "available" →
       shareStep acct marker throws st (id, rec)
         = ⟨st.pending + (if throws id then 1 else 0),
            st.actions ++ [ApiAction.share id acct]⟩) ∧
    (lowerString rec.status = "copying" →
       shareStep acct marker throws st (id, rec) = ⟨st.pending + 1, st.actions⟩) ∧
    (lowerString rec.status ≠ "available" → lowerString rec.status ≠ "copying" →
       shareStep acct marker throws st (id, rec) = st) := by
  unfold shareStep
  simp only [hm, if_true]
  refine ⟨?_, ?_, ?_⟩
  · intro hs
    by_cases ht : throws id <;> simp [hs, ht]
  · intro hs
    simp [hs]
  · intro h1 h2
    simp [h1, h2]

lemma guardLocal_remote_disjoint (env : CopierEnv) (own ownDest : String → Option SnapshotRecord)
    (id : String) :
    copierGuardLocal own ownDest id = true → copierGuardRemote env own ownDest id = false := by
  unfold copierGuardLocal copierGuardRemote
  cases own id <;> simp

lemma guardLocal_delete_disjoint (env : CopierEnv) (own ownDest : String → Option SnapshotRecord)
    (id : String) :
    copierGuardLocal own ownDest id = true → copierGuardDelete env own ownDest id = false := by
  unfold copierGuardLocal copierGuardDelete
  cases ownDest id <;> simp

lemma guardRemote_delete_disjoint (env : CopierEnv) (own ownDest : String → Option SnapshotRecord)
    (id : String) :
    copierGuardRemote env own ownDest id = true → copierGuardDelete env own ownDest id = false := by
  unfold copierGuardRemote copierGuardDelete
  cases ownDest id <;> simp

/-- C1: the three substantive branch guards of the Copier decision are
pairwise exclusive, the first-match chain fires exactly one of the four
branches, and, when the shared mapping has no duplicate identifiers, no
identifier is the target of more than one invoked call in a whole run. -/
theorem C1_branch_mutual_exclusion :
    (∀ (env : CopierEnv) (own ownDest : String → Option SnapshotRecord) (id : String),
      (copierGuardLocal own ownDest id).toNat
        + (copierGuardRemote env own ownDest id).toNat
        + (copierGuardDelete env own ownDest id).toNat ≤ 1) ∧
    (∀ (env : CopierEnv) (own ownDest : String → Option SnapshotRecord) (id : String),
      (copierGuardLocal own ownDest id).toNat
        + ((!copierGuardLocal own ownDest id) && copierGuardRemote env own ownDest id).toNat
        + ((!copierGuardLocal own ownDest id) && (!copierGuardRemote env own ownDest id)
            && copierGuardDelete env own ownDest id).toNat
        + (!(copierGuardLocal own ownDest id || copierGuardRemote env own ownDest id
            || copierGuardDelete env own ownDest id)).toNat = 1) ∧
    (∀ (env : CopierEnv) (own ownDest : String → Option SnapshotRecord) (w : CopierWorld)
      (shared : List (String × SnapshotRecord)) (id : String),
      (shared.map Prod.fst).Nodup →
      (exceptState (copierLoop env own ownDest w shared ⟨0, []⟩)).actions.countP
          (fun a => ApiAction.target a == id) ≤ 1) := by
  refine ⟨?_, ?_, ?_⟩
  · intro env own ownDest id
    have d12 := guardLocal_remote_disjoint env own ownDest id
    have d13 := guardLocal_delete_disjoint env own ownDest id
    have d23 := guardRemote_delete_disjoint env own ownDest id
    cases h1 : copierGuardLocal own ownDest id <;>
      cases h2 : copierGuardRemote env own ownDest id <;>
        cases h3 : copierGuardDelete env own ownDest id <;>
          simp_all
  · intro env own ownDest id
    cases h1 : copierGuardLocal own ownDest id <;>
      cases h2 : copierGuardRemote env own ownDest id <;>
        cases h3 : copierGuardDelete env own ownDest id <;>
          simp_all
  · intro env own ownDest w shared id hnd
    have h := copierLoop_actions_count id env own ownDest w shared ⟨0, []⟩
    simp only [List.countP_nil, Nat.zero_add] at h
    refine le_trans h ?_
    have : shared.countP (fun e => e.1 == id) = (shared.map Prod.fst).countP (fun x => x == id) := by
      rw [List.countP_map]
      rfl
    rw [this]
    have := List.nodup_iff_count_le_one.mp hnd id
    rwa [List.count] at this

/-- C10: the Copier touches only identifiers of the shared mapping: every
invoked call in a run targets a key of the shared listing, and the result of
a run does not depend on the own-set membership of identifiers outside it. -/
theorem C10_only_shared_targeted :
    (∀ (env : CopierEnv) (own ownDest : String → Option SnapshotRecord) (w : CopierWorld)
      (shared : List (String × SnapshotRecord)),
      ∀ a ∈ (exceptState (copierLoop env own ownDest w shared ⟨0, []⟩)).actions,
        ApiAction.target a ∈ shared.map Prod.fst) ∧
    (∀ (env : CopierEnv) (own1 ownDest1 own2 ownDest2 : String → Option SnapshotRecord)
      (w : CopierWorld) (shared : List (String × SnapshotRecord)) (st : RunState),
      (∀ e ∈ shared, own1 e.1 = own2 e.1) → (∀ e ∈ shared, ownDest1 e.1 = ownDest2 e.1) →
      copierLoop env own1 ownDest1 w shared st = copierLoop env own2 ownDest2 w shared st) := by
  constructor
  · intro env own ownDest w shared a ha
    rcases copierLoop_actions_mem env own ownDest w shared ⟨0, []⟩ a ha with h | h
    · simp at h
    · exact h
  · intro env own1 ownDest1 own2 ownDest2 w shared st h1 h2
    exact copierLoop_congr env own1 ownDest1 own2 ownDest2 w shared st h1 h2

/-- C5: per engine, the final pending counter is exactly the number of
caught transition failures plus, for the Copier, the not-available
remote-copy candidates and, for the Sharer, the marker-tagged snapshots in
copying status; a run with zero such events never raises the pending
SnapshotToolException. -/
theorem C5_aggregator_exact :
    (∀ (env : CopierEnv) (own ownDest : String → Option SnapshotRecord) (w : CopierWorld)
      (shared : List (String × SnapshotRecord)) (s : RunState),
      copierLoop env own ownDest w shared ⟨0, []⟩ = .ok s →
      s.pending = shared.countP (copierCaughtFailure env own ownDest w)
        + shared.countP (copierNotAvailableRemote env own ownDest)) ∧
    (∀ (acct : String) (marker throws : String → Bool)
      (filtered : List (String × SnapshotRecord)),
      (shareLoop acct marker throws filtered ⟨0, []⟩).pending
        = filtered.countP (sharerShareFailure marker throws)
          + filtered.countP (sharerCopying marker)) ∧
    (∀ (env : CopierEnv) (own ownDest : String → Option SnapshotRecord) (w : CopierWorld)
      (shared : List (String × SnapshotRecord)),
      shared.countP (copierCaughtFailure env own ownDest w) = 0 →
      shared.countP (copierNotAvailableRemote env own ownDest) = 0 →
      ∀ n, CopySnapshotsDestAurora.lambda_handler env own ownDest w shared
        ≠ CopierOutcome.snapshotToolException n) ∧
    (∀ (acct : String) (marker throws : String → Bool)
      (filtered : List (String × SnapshotRecord)),
      filtered.countP (sharerShareFailure marker throws) = 0 →
      filtered.countP (sharerCopying marker) = 0 →
      ∀ n, ShareSnapshotsAurora.lambda_handler acct marker throws filtered
        ≠ SharerOutcome.snapshotToolException n) := by
  refine ⟨?_, ?_, ?_, ?_⟩
  · intro env own ownDest w shared s h
    have := copierLoop_ok_pending env own ownDest w shared ⟨0, []⟩ s h
    simpa using this
  · intro acct marker throws filtered
    have := shareLoop_pending acct marker throws filtered ⟨0, []⟩
    simpa using this
  · intro env own ownDest w shared hf hn n
    unfold CopySnapshotsDestAurora.lambda_handler
    rcases hloop : copierLoop env own ownDest w shared ⟨0, []⟩ with s | s
    · simp
    · have := copierLoop_ok_pending env own ownDest w shared ⟨0, []⟩ s hloop
      simp only [hf, hn] at this
      simp [this]
  · intro acct marker throws filtered hf hn n
    unfold ShareSnapshotsAurora.lambda_handler
    have := shareLoop_pending acct marker throws filtered ⟨0, []⟩
    simp only [hf, hn] at this
    simp [this]

/-- C6: given a run of the loop that completes, each entry point returns
normally exactly when the pending counter is zero, and otherwise raises the
SnapshotToolException carrying that exact pending count. -/
theorem C6_return_iff_converged :
    (∀ (env : CopierEnv) (own ownDest : String → Option SnapshotRecord) (w : CopierWorld)
      (shared : List (String × SnapshotRecord)) (s : RunState),
      copierLoop env own ownDest w shared ⟨0, []⟩ = .ok s →
      ((CopySnapshotsDestAurora.lambda_handler env own ownDest w shared = CopierOutcome.ok
          ↔ s.pending = 0) ∧
        (0 < s.pending →
          CopySnapshotsDestAurora.lambda_handler env own ownDest w shared
            = CopierOutcome.snapshotToolException s.pending))) ∧
    (∀ (acct : String) (marker throws : String → Bool)
      (filtered : List (String × SnapshotRecord)),
      ((ShareSnapshotsAurora.lambda_handler acct marker throws filtered = SharerOutcome.ok
          ↔ (shareLoop acct marker throws filtered ⟨0, []⟩).pending = 0) ∧
        (0 < (shareLoop acct marker throws filtered ⟨0, []⟩).pending →
          ShareSnapshotsAurora.lambda_handler acct marker throws filtered
            = SharerOutcome.snapshotToolException
                (shareLoop acct marker throws filtered ⟨0, []⟩).pending))) := by
  constructor
  · intro env own ownDest w shared s h
    unfold CopySnapshotsDestAurora.lambda_handler
    rw [h]
    constructor
    · by_cases hp : s.pending > 0 <;> simp [hp] <;> omega
    · intro hp
      simp [hp]
  · intro acct marker throws filtered
    unfold ShareSnapshotsAurora.lambda_handler
    constructor
    · by_cases hp : (shareLoop acct marker throws filtered ⟨0, []⟩).pending > 0 <;>
        simp [hp] <;> omega
    · intro hp
      simp [hp]

/-- C7 (amended): a caught exception from a copy-local, copy-remote, or
share call is folded into the pending counter for that snapshot only and
the loop continues with the remaining entries; an exception from the
DeleteLocal call is not caught and aborts the run, leaving the remaining
entries unprocessed. -/
theorem C7_caught_failure_continues :
    (∀ (env : CopierEnv) (own ownDest : String → Option SnapshotRecord) (w : CopierWorld)
      (st : RunState) (rest : List (String × SnapshotRecord)) (id : String)
      (rec : SnapshotRecord) (ts : Int),
      own id = none → ownDest id = none → rec.creationDate = some ts →
      env.now - ts < env.retentionDays * 86400 → env.region = env.destRegion →
      w.copyLocalThrows id = true →
      copierLoop env own ownDest w ((id, rec) :: rest) st
        = copierLoop env own ownDest w rest
            ⟨st.pending + 1, st.actions ++ [ApiAction.copyLocal id]⟩) ∧
    (∀ (env : CopierEnv) (own ownDest : String → Option SnapshotRecord) (w : CopierWorld)
      (st : RunState) (rest : List (String × SnapshotRecord)) (id : String)
      (rec orec : SnapshotRecord),
      own id = some orec → ownDest id = none → orec.status = "available" →
      env.region ≠ env.destRegion → w.copyRemoteThrows id = true →
      copierLoop env own ownDest w ((id, rec) :: rest) st
        = copierLoop env own ownDest w rest
            ⟨st.pending + 1, st.actions ++ [ApiAction.copyRemote id]⟩) ∧
    (∀ (acct : String) (marker throws : String → Bool) (st : RunState)
      (rest : List (String × SnapshotRecord)) (id : String) (rec : SnapshotRecord),
      marker rec.arn = true → lowerString rec.status = "available" → throws id = true →
      shareLoop acct marker throws ((id, rec) :: rest) st
        = shareLoop acct marker throws rest
            ⟨st.pending + 1, st.actions ++ [ApiAction.share id acct]⟩) ∧
    (∀ (env : CopierEnv) (own ownDest : String → Option SnapshotRecord) (w : CopierWorld)
      (st : RunState) (rest : List (String × SnapshotRecord)) (id : String)
      (rec orec drec : SnapshotRecord),
      own id = some orec → ownDest id = some drec → drec.status = "available" →
      env.region ≠ env.destRegion → w.deleteThrows id = true →
      copierLoop env own ownDest w ((id, rec) :: rest) st
        = .error ⟨st.pending, st.actions ++ [ApiAction.deleteLocal id]⟩) := by
  refine ⟨?_, ?_, ?_, ?_⟩
  · intro env own ownDest w st rest id rec ts hOwn hDest hts hfresh hreg hthrow
    have hstep : copierStep env own ownDest w st (id, rec)
        = .ok ⟨st.pending + 1, st.actions ++ [ApiAction.copyLocal id]⟩ := by
      unfold copierStep copierGuardLocal
      simp [hOwn, hDest, hts, hfresh, hreg, hthrow]
    rw [copierLoop, hstep]
  · intro env own ownDest w st rest id rec orec hOwn hDest hs hreg hthrow
    have hstep : copierStep env own ownDest w st (id, rec)
        = .ok ⟨st.pending + 1, st.actions ++ [ApiAction.copyRemote id]⟩ := by
      unfold copierStep copierGuardLocal copierGuardRemote
      simp [hOwn, hDest, hs, hreg, hthrow]
    rw [copierLoop, hstep]
  · intro acct marker throws st rest id rec hm hs hthrow
    have hstep : shareStep acct marker throws st (id, rec)
        = ⟨st.pending + 1, st.actions ++ [ApiAction.share id acct]⟩ := by
      unfold shareStep
      simp [hm, hs, hthrow]
    rw [shareLoop, hstep]
  · intro env own ownDest w st rest id rec orec drec hOwn hDest hs hreg hthrow
    have hstep : copierStep env own ownDest w st (id, rec)
        = .error ⟨st.pending, st.actions ++ [ApiAction.deleteLocal id]⟩ := by
      unfold copierStep copierGuardLocal copierGuardRemote copierGuardDelete
        ownDestStatusAvailable
      simp [hOwn, hDest, hs, hreg, hthrow]
    rw [copierLoop, hstep]

/-- C7 counterexample: with two shared entries, the first in the DeleteLocal
branch with a raising delete call and the second a not-available remote-copy
candidate, the run aborts at the first entry: the raise is not caught, the
pending counter stays zero, the second entry is never processed, and the
entry point ends in an uncaught exception rather than the pending error the
claim requires. -/
theorem C7_delete_error_aborts_counterexample :
    copierLoop ⟨"us-east-1", "us-west-2", 7, 172800⟩
      (fun id => if id == "db4-cluster" then some ⟨"available", "arn-own-4", some 0⟩
        else if id == "db3-cluster" then some ⟨"creating", "arn-own-3", some 0⟩ else none)
      (fun id => if id == "db4-cluster" then some ⟨"available", "arn-dest-4", some 0⟩ else none)
      ⟨fun _ => false, fun _ => false, fun id => id == "db4-cluster"⟩
      [("db4-cluster", ⟨"available", "arn-sh-4", some 0⟩),
       ("db3-cluster", ⟨"creating", "arn-sh-3", some 0⟩)] ⟨0, []⟩
      = .error ⟨0, [ApiAction.deleteLocal "db4-cluster"]⟩ ∧
    CopySnapshotsDestAurora.lambda_handler ⟨"us-east-1", "us-west-2", 7, 172800⟩
      (fun id => if id == "db4-cluster" then some ⟨"available", "arn-own-4", some 0⟩
        else if id == "db3-cluster" then some ⟨"creating", "arn-own-3", some 0⟩ else none)
      (fun id => if id == "db4-cluster" then some ⟨"available", "arn-dest-4", some 0⟩ else none)
      ⟨fun _ => false, fun _ => false, fun id => id == "db4-cluster"⟩
      [("db4-cluster", ⟨"available", "arn-sh-4", some 0⟩),
       ("db3-cluster", ⟨"creating", "arn-sh-3", some 0⟩)]
      = CopierOutcome.uncaught := by
  constructor <;> decide

/-- C8: at the failing input, a shared-only snapshot within the retention
window with the regions distinct, the code increments the pending counter
through the caught NameError of line 109 without ever invoking copy_local:
the call trace is empty, yet the handler raises the pending error. -/
theorem C8_cross_region_local_copy_never_invoked :
    copierStep ⟨"us-east-1", "us-west-2", 7, 172800⟩ (fun _ => none) (fun _ => none)
      ⟨fun _ => false, fun _ => false, fun _ => false⟩ ⟨0, []⟩
      ("db1-cluster", ⟨"available", "arn-sh-1", some 0⟩)
      = .ok ⟨1, []⟩ ∧
    CopySnapshotsDestAurora.lambda_handler ⟨"us-east-1", "us-west-2", 7, 172800⟩
      (fun _ => none) (fun _ => none)
      ⟨fun _ => false, fun _ => false, fun _ => false⟩
      [("db1-cluster", ⟨"available", "arn-sh-1", some 0⟩)]
      = CopierOutcome.snapshotToolException 1 := by
  constructor <;> decide

/-- Witness for C1 at a concrete two-entry shared mapping with distinct keys. -/
theorem C1_branch_mutual_exclusion_witness :
    (([("db1-cluster", (⟨"available", "a1", some 0⟩ : SnapshotRecord)),
       ("db2-cluster", (⟨"creating", "a2", some 0⟩ : SnapshotRecord))].map Prod.fst).Nodup) ∧
    (exceptState (copierLoop ⟨"us-east-1", "us-west-2", 7, 172800⟩
        (fun _ => none) (fun _ => none)
        ⟨fun _ => false, fun _ => false, fun _ => false⟩
        [("db1-cluster", ⟨"available", "a1", some 0⟩),
         ("db2-cluster", ⟨"creating", "a2", some 0⟩)] ⟨0, []⟩)).actions.countP
      (fun a => ApiAction.target a == "db1-cluster") ≤ 1 :=
  ⟨by decide, C1_branch_mutual_exclusion.2.2 _ _ _ _ _ "db1-cluster" (by decide)⟩

/-- Witness for C2 at a shared-only snapshot ten days old with a seven day
retention window: the step is a no-op. -/
theorem C2_stale_witness :
    ((⟨"us-east-1", "us-west-2", 7, 864000⟩ : CopierEnv).retentionDays * 86400
        ≤ (⟨"us-east-1", "us-west-2", 7, 864000⟩ : CopierEnv).now - 0) ∧
    copierStep ⟨"us-east-1", "us-west-2", 7, 864000⟩ (fun _ => none) (fun _ => none)
      ⟨fun _ => false, fun _ => false, fun _ => false⟩ ⟨0, []⟩
      ("db2-cluster", ⟨"available", "a2", some 0⟩) = .ok ⟨0, []⟩ :=
  ⟨by decide, C2_stale_or_untimestamped_shared_is_noop _ _ _ _ _ _ _ rfl rfl
    (Or.inr ⟨0, rfl, by decide⟩)⟩

/-- Witness for C3 at an available own-source snapshot absent from the
destination region, with the regions distinct. -/
theorem C3_remote_copy_witness :
    ("available" : String) = "available" ∧
    copierStep ⟨"us-east-1", "us-west-2", 7, 172800⟩
      (fun id => if id == "db3-cluster" then some ⟨"available", "a3", some 0⟩ else none)
      (fun _ => none)
      ⟨fun _ => false, fun _ => false, fun _ => false⟩ ⟨0, []⟩
      ("db3-cluster", ⟨"available", "sh3", some 0⟩)
      = .ok ⟨0, [ApiAction.copyRemote "db3-cluster"]⟩ :=
  ⟨rfl, (C3_remote_copy_decision (⟨"us-east-1", "us-west-2", 7, 172800⟩ : CopierEnv)
    (fun id => if id == "db3-cluster" then some ⟨"available", "a3", some 0⟩ else none)
    (fun _ => none) (⟨fun _ => false, fun _ => false, fun _ => false⟩ : CopierWorld) ⟨0, []⟩ "db3-cluster"
    ⟨"available", "sh3", some 0⟩ ⟨"available", "a3", some 0⟩
    (by decide) rfl (by decide)).1 rfl⟩

/-- Witness for C4 at a snapshot present in both own sets with an available
destination copy, regions distinct, delete call succeeding. -/
theorem C4_delete_local_witness :
    ("available" : String) = "available" ∧
    copierStep ⟨"us-east-1", "us-west-2", 7, 172800⟩
      (fun id => if id == "db4-cluster" then some ⟨"available", "a4", some 0⟩ else none)
      (fun id => if id == "db4-cluster" then some ⟨"available", "d4", some 0⟩ else none)
      ⟨fun _ => false, fun _ => false, fun _ => false⟩ ⟨0, []⟩
      ("db4-cluster", ⟨"available", "sh4", some 0⟩)
      = .ok ⟨0, [ApiAction.deleteLocal "db4-cluster"]⟩ :=
  ⟨rfl, C4_delete_local_decision (⟨"us-east-1", "us-west-2", 7, 172800⟩ : CopierEnv)
    (fun id => if id == "db4-cluster" then some ⟨"available", "a4", some 0⟩ else none)
    (fun id => if id == "db4-cluster" then some ⟨"available", "d4", some 0⟩ else none)
    (⟨fun _ => false, fun _ => false, fun _ => false⟩ : CopierWorld) ⟨0, []⟩ "db4-cluster" ⟨"available", "sh4", some 0⟩
    ⟨"available", "a4", some 0⟩ ⟨"available", "d4", some 0⟩
    (by decide) (by decide) rfl (by decide)⟩

/-- Witness for C5 at a one-entry shared mapping whose single entry is a
not-available remote-copy candidate: pending is exactly one. -/
theorem C5_aggregator_witness :
    copierLoop ⟨"us-east-1", "us-west-2", 7, 172800⟩
      (fun id => if id == "db3-cluster" then some ⟨"creating", "a3", some 0⟩ else none)
      (fun _ => none)
      ⟨fun _ => false, fun _ => false, fun _ => false⟩
      [("db3-cluster", ⟨"creating", "sh3", some 0⟩)] ⟨0, []⟩ = .ok ⟨1, []⟩ ∧
    (1 : Nat) = [("db3-cluster", (⟨"creating", "sh3", some 0⟩ : SnapshotRecord))].countP
        (copierCaughtFailure ⟨"us-east-1", "us-west-2", 7, 172800⟩
          (fun id => if id == "db3-cluster" then some ⟨"creating", "a3", some 0⟩ else none)
          (fun _ => none) ⟨fun _ => false, fun _ => false, fun _ => false⟩)
      + [("db3-cluster", (⟨"creating", "sh3", some 0⟩ : SnapshotRecord))].countP
        (copierNotAvailableRemote ⟨"us-east-1", "us-west-2", 7, 172800⟩
          (fun id => if id == "db3-cluster" then some ⟨"creating", "a3", some 0⟩ else none)
          (fun _ => none)) :=
  ⟨by decide, C5_aggregator_exact.1 (⟨"us-east-1", "us-west-2", 7, 172800⟩ : CopierEnv)
    (fun id => if id == "db3-cluster" then some ⟨"creating", "a3", some 0⟩ else none)
    (fun _ => none) (⟨fun _ => false, fun _ => false, fun _ => false⟩ : CopierWorld)
    [("db3-cluster", ⟨"creating", "sh3", some 0⟩)] ⟨1, []⟩ (by decide)⟩

/-- Witness for C6 at the same one-pending input: the handler raises the
pending error carrying one. -/
theorem C6_return_iff_converged_witness :
    copierLoop ⟨"us-east-1", "us-west-2", 7, 172800⟩
      (fun id => if id == "db3-cluster" then some ⟨"creating", "a3", some 0⟩ else none)
      (fun _ => none)
      ⟨fun _ => false, fun _ => false, fun _ => false⟩
      [("db3-cluster", ⟨"creating", "sh3", some 0⟩)] ⟨0, []⟩ = .ok ⟨1, []⟩ ∧
    CopySnapshotsDestAurora.lambda_handler ⟨"us-east-1", "us-west-2", 7, 172800⟩
      (fun id => if id == "db3-cluster" then some ⟨"creating", "a3", some 0⟩ else none)
      (fun _ => none)
      ⟨fun _ => false, fun _ => false, fun _ => false⟩
      [("db3-cluster", ⟨"creating", "sh3", some 0⟩)]
      = CopierOutcome.snapshotToolException 1 :=
  ⟨by decide,
    (C6_return_iff_converged.1 (⟨"us-east-1", "us-west-2", 7, 172800⟩ : CopierEnv)
      (fun id => if id == "db3-cluster" then some ⟨"creating", "a3", some 0⟩ else none)
      (fun _ => none) (⟨fun _ => false, fun _ => false, fun _ => false⟩ : CopierWorld)
      [("db3-cluster", ⟨"creating", "sh3", some 0⟩)] ⟨1, []⟩ (by decide)).2 (by decide)⟩

/-- Witness for C7 at a raising remote-copy call followed by nothing: the
failure is folded into pending and the loop continues (and, the list being
empty afterwards, returns). -/
theorem C7_caught_failure_witness :
    ((fun (id : String) => if id == "db3-cluster"
        then some (⟨"available", "a3", some 0⟩ : SnapshotRecord) else none) "db3-cluster"
      = some ⟨"available", "a3", some 0⟩) ∧
    copierLoop ⟨"us-east-1", "us-west-2", 7, 172800⟩
      (fun id => if id == "db3-cluster" then some ⟨"available", "a3", some 0⟩ else none)
      (fun _ => none)
      ⟨fun _ => false, fun _ => true, fun _ => false⟩
      [("db3-cluster", ⟨"available", "sh3", some 0⟩)] ⟨0, []⟩
      = .ok ⟨1, [ApiAction.copyRemote "db3-cluster"]⟩ :=
  ⟨by decide,
    C7_caught_failure_continues.2.1 (⟨"us-east-1", "us-west-2", 7, 172800⟩ : CopierEnv)
      (fun id => if id == "db3-cluster" then some ⟨"available", "a3", some 0⟩ else none)
      (fun _ => none) (⟨fun _ => false, fun _ => true, fun _ => false⟩ : CopierWorld)
      ⟨0, []⟩ [] "db3-cluster" ⟨"available", "sh3", some 0⟩ ⟨"available", "a3", some 0⟩
      (by decide) rfl rfl (by decide) rfl⟩

/-- Witness for C9 at an available tagged snapshot whose share call
succeeds. -/
theorem C9_sharer_decision_witness :
    lowerString "Available" = "available" ∧
    shareStep "123456789012" (fun _ => true) (fun _ => false) ⟨0, []⟩
      ("db5", ⟨"Available", "arn-5", none⟩)
      = ⟨0, [ApiAction.share "db5" "123456789012"]⟩ :=
  ⟨by decide, (C9_sharer_decision _ _ _ _ _ _ rfl).1 (by decide)⟩

/-- Witness for C10: two own-source mappings agreeing on the only shared
identifier produce identical runs. -/
theorem C10_only_shared_targeted_witness :
    (∀ e ∈ [("db1-cluster", (⟨"available", "sh1", some 0⟩ : SnapshotRecord))],
      ((fun _ => none) : String → Option SnapshotRecord) e.1
        = (fun id => if id == "db1-cluster" then none
            else some (⟨"available", "zz", none⟩ : SnapshotRecord)) e.1) ∧
    copierLoop ⟨"us-east-1", "us-west-2", 7, 172800⟩ (fun _ => none) (fun _ => none)
      ⟨fun _ => false, fun _ => false, fun _ => false⟩
      [("db1-cluster", ⟨"available", "sh1", some 0⟩)] ⟨0, []⟩
      = copierLoop ⟨"us-east-1", "us-west-2", 7, 172800⟩
        (fun id => if id == "db1-cluster" then none
          else some ⟨"available", "zz", none⟩) (fun _ => none)
        ⟨fun _ => false, fun _ => false, fun _ => false⟩
        [("db1-cluster", ⟨"available", "sh1", some 0⟩)] ⟨0, []⟩ :=
  ⟨by decide,
    C10_only_shared_targeted.2 (⟨"us-east-1", "us-west-2", 7, 172800⟩ : CopierEnv) ((fun _ => none) : String → Option SnapshotRecord) ((fun _ => none) : String → Option SnapshotRecord)
      (fun id => if id == "db1-cluster" then none else some ⟨"available", "zz", none⟩)
      ((fun _ => none) : String → Option SnapshotRecord) (⟨fun _ => false, fun _ => false, fun _ => false⟩ : CopierWorld)
      [("db1-cluster", ⟨"available", "sh1", some 0⟩)] ⟨0, []⟩
      (by decide) (fun e _ => rfl)⟩
